import Mathlib

/-!
Shallow embedding of the dual-sink activity-event persister
(`src/broadcastlistener/activity.listener.ts` and `src/search/search.module.ts`),
together with theorems settling the specification claims about it.

The listener's entry point `handleLogEvent` is modelled as a function that,
given the module configuration, an environment describing the health of the
two sinks and the store-generated values, and the delivered payload, produces
the trace of observable events the TypeScript method performs, in order.
A null/undefined payload is modelled by the `Option`-taking wrapper
`handleLogEventJs`, which returns `Except` to model an escaping JS error.
-/

namespace ActivityListener

/-- The inbound payload shape (`ActivityLogPayload` from `nestjs-session-log`):
`{ userId: string, url: string, processType: string, responseTimeMs: number }`. -/
structure ActivityLogPayload where
  userId : String
  url : String
  processType : String
  responseTimeMs : Int
deriving Repr, DecidableEq

/-- Modelled from the spec: the relational entity `ActivityLog`
(`src/broadcastlistener/activity.entity.ts` is imported by the listener but is
not among the source files). Per the spec's relational schema: a generated
`id` (primary key), a `timestamp` generated at write time, and the four
producer-supplied fields. -/
structure ActivityLog where
  id : Nat
  timestamp : String
  userId : String
  url : String
  processType : String
  responseTimeMs : Int
deriving Repr, DecidableEq

/-- The entity freshly created by `this.logRepository.create(payload)`:
the payload's fields copied into a new object; `id` and `timestamp` are
assigned by the store only at `save` time. -/
structure NewActivityLog where
  userId : String
  url : String
  processType : String
  responseTimeMs : Int
deriving Repr, DecidableEq

/-- `Repository.create` copies the payload's fields into a fresh entity. -/
def repositoryCreate (p : ActivityLogPayload) : NewActivityLog :=
  ⟨p.userId, p.url, p.processType, p.responseTimeMs⟩

/-- The document body built at the index call site:
`{ ...payload, timestamp: new Date().toISOString() }`. -/
structure SearchDoc where
  userId : String
  url : String
  processType : String
  responseTimeMs : Int
  timestamp : String
deriving Repr, DecidableEq

/-- NestJS `Logger` severities used by the listener:
`logger.log` (info), `logger.error`, `logger.warn`. -/
inductive LogLevel where
  | info
  | error
  | warn
deriving Repr, DecidableEq

/-- Configuration surface relevant to the listener: the optional
`ELASTICSEARCH_NODE` value read by `SearchModule`'s factory. -/
structure Config where
  elasticsearchNode : Option String
deriving Repr, DecidableEq

/-- The environment of one delivery: whether each sink call succeeds, and the
values generated outside the listener (the store-assigned row id and
timestamp, and the ISO string `new Date().toISOString()` produced at the
index call site). -/
structure Env where
  dbOk : Bool
  esOk : Bool
  assignedId : Nat
  dbTimestamp : String
  nowIso : String
deriving Repr, DecidableEq

/-- Fields of the payload object (for modelling JS assignments to it). -/
inductive PayloadField where
  | userId
  | url
  | processType
  | responseTimeMs
deriving Repr, DecidableEq

/-- A JS value that could be assigned to a payload field. -/
inductive JsValue where
  | str (s : String)
  | num (n : Int)
deriving Repr, DecidableEq

/-- Observable events of one `handleLogEvent` invocation, in program order.
`payloadSet` is the event a JS assignment `payload.f = v` would emit; the
translation of each source statement emits it wherever the source mutates
the payload. -/
inductive Event where
  | logMsg (level : LogLevel) (message : String)
  | clsOpen
  | clsSet (key : String) (value : String)
  | dbSaveCall (entity : NewActivityLog)
  | dbRowInserted (row : ActivityLog)
  | clsClose
  | esIndexCall (node : String) (index : String) (body : SearchDoc)
  | esDocIndexed (doc : SearchDoc)
  | payloadSet (f : PayloadField) (v : JsValue)
deriving Repr, DecidableEq

/-- The node the `SearchModule` factory hands to `ElasticsearchModule`:
`configService.get('ELASTICSEARCH_NODE') || 'http://localhost:9200'`. -/
def searchModuleNode (cfg : Config) : String :=
  cfg.elasticsearchNode.getD "http://localhost:9200"

/-- The `elasticsearchService` field of the listener. The constructor
parameter is a plain injected dependency (not marked `@Optional()`), and
`SearchModule` always registers the service (with `searchModuleNode` as its
node), so the field is always present. -/
def listenerEsService (cfg : Config) : Option String :=
  some (searchModuleNode cfg)

/-- The trace of `handleLogEvent` on a non-null payload:
1. receipt log (reads `payload.userId` and `payload.url`);
2. first `try`: `clsService.run` opens a CLS scope, sets `userId`, creates
   the entity and awaits `save`; the scope closes when the callback returns
   or throws; on success an info log, on failure the error is caught and an
   error log emitted;
3. second `try`: if `this.elasticsearchService` is (always) truthy, the
   index call on index `activity-logs` with the spread payload plus a fresh
   ISO timestamp; on success an info log, on failure the error is caught
   and a warn log emitted. -/
def handleLogEvent (cfg : Config) (env : Env) (payload : ActivityLogPayload) :
    List Event :=
  [Event.logMsg .info
    ("Caught log event! User: " ++ payload.userId ++ ", URL: " ++ payload.url)]
  ++ (if env.dbOk then
        [Event.clsOpen,
         Event.clsSet "userId" payload.userId,
         Event.dbSaveCall (repositoryCreate payload),
         Event.dbRowInserted
           ⟨env.assignedId, env.dbTimestamp,
            payload.userId, payload.url, payload.processType,
            payload.responseTimeMs⟩,
         Event.clsClose,
         Event.logMsg .info "Saved to MariaDB"]
      else
        [Event.clsOpen,
         Event.clsSet "userId" payload.userId,
         Event.dbSaveCall (repositoryCreate payload),
         Event.clsClose,
         Event.logMsg .error "Failed to save activity log to MariaDB"])
  ++ (match listenerEsService cfg with
      | some node =>
        let body : SearchDoc :=
          ⟨payload.userId, payload.url, payload.processType,
           payload.responseTimeMs, env.nowIso⟩
        if env.esOk then
          [Event.esIndexCall node "activity-logs" body,
           Event.esDocIndexed body,
           Event.logMsg .info "Saved to Elasticsearch"]
        else
          [Event.esIndexCall node "activity-logs" body,
           Event.logMsg .warn "Elasticsearch not available, skipping ES save"]
      | none => [])

/-- An error escaping the entry point to its caller. -/
inductive JsError where
  | typeError
deriving Repr, DecidableEq

/-- `handleLogEvent` as invoked with a possibly null/undefined payload.
The very first statement interpolates `payload.userId`, outside both `try`
blocks, so a null payload throws a `TypeError` that escapes; for a non-null
payload no statement outside the two `try` blocks can throw, so the method
returns normally with its trace. -/
def handleLogEventJs (cfg : Config) (env : Env)
    (payload : Option ActivityLogPayload) : Except JsError (List Event) :=
  match payload with
  | none => .error .typeError
  | some p => .ok (handleLogEvent cfg env p)

/-! ### Derived observations on a trace -/

/-- Rows actually inserted into the relational store. -/
def selectRows : List Event → List ActivityLog
  | [] => []
  | .dbRowInserted r :: tr => r :: selectRows tr
  | _ :: tr => selectRows tr

/-- Documents actually indexed into the search store. -/
def selectDocs : List Event → List SearchDoc
  | [] => []
  | .esDocIndexed d :: tr => d :: selectDocs tr
  | _ :: tr => selectDocs tr

/-- Messages logged at a given severity. -/
def logsAt (lvl : LogLevel) : List Event → List String
  | [] => []
  | .logMsg l m :: tr => if l = lvl then m :: logsAt lvl tr else logsAt lvl tr
  | _ :: tr => logsAt lvl tr

/-- Number of `repository.save` calls (relational insert attempts). -/
def dbSaveCalls : List Event → Nat
  | [] => 0
  | .dbSaveCall _ :: tr => dbSaveCalls tr + 1
  | _ :: tr => dbSaveCalls tr

/-- Number of `elasticsearchService.index` calls (index attempts). -/
def esIndexCalls : List Event → Nat
  | [] => 0
  | .esIndexCall _ _ _ :: tr => esIndexCalls tr + 1
  | _ :: tr => esIndexCalls tr

/-- The entities passed to `repository.save`, in order. -/
def savedEntities : List Event → List NewActivityLog
  | [] => []
  | .dbSaveCall e :: tr => e :: savedEntities tr
  | _ :: tr => savedEntities tr

/-- The `(node, index, body)` triples of the index calls, in order. -/
def indexCallArgs : List Event → List (String × String × SearchDoc)
  | [] => []
  | .esIndexCall n i b :: tr => (n, i, b) :: indexCallArgs tr
  | _ :: tr => indexCallArgs tr

/-- Number of rows inserted. -/
def dbRowsInserted (tr : List Event) : Nat := (selectRows tr).length

/-- Number of CLS scope openings. -/
def clsOpens : List Event → Nat
  | [] => 0
  | .clsOpen :: tr => clsOpens tr + 1
  | _ :: tr => clsOpens tr

/-- Number of CLS scope teardowns. -/
def clsCloses : List Event → Nat
  | [] => 0
  | .clsClose :: tr => clsCloses tr + 1
  | _ :: tr => clsCloses tr

/-- Number of assignments to the payload object. -/
def payloadWrites : List Event → Nat
  | [] => 0
  | .payloadSet _ _ :: tr => payloadWrites tr + 1
  | _ :: tr => payloadWrites tr

/-- Semantics of a JS assignment `payload.f = v` on the payload value. -/
def setField (p : ActivityLogPayload) : PayloadField → JsValue → ActivityLogPayload
  | .userId, .str s => { p with userId := s }
  | .url, .str s => { p with url := s }
  | .processType, .str s => { p with processType := s }
  | .responseTimeMs, .num n => { p with responseTimeMs := n }
  | _, _ => p

/-- The value of the payload object after a trace has run: each `payloadSet`
event applies its assignment; every other event leaves the object alone. -/
def finalPayload (p : ActivityLogPayload) : List Event → ActivityLogPayload
  | [] => p
  | .payloadSet f v :: tr => finalPayload (setField p f v) tr
  | _ :: tr => finalPayload p tr

/-! ### The two stores as state -/

/-- The persisted contents of the two sinks. -/
structure Stores where
  rows : List ActivityLog
  docs : List SearchDoc
deriving Repr, DecidableEq

/-- Effect of one event on the stores: a relational insert appends one row,
an index call appends one document; nothing else touches persisted data. -/
def stepEvent (s : Stores) : Event → Stores
  | .dbRowInserted r => { s with rows := s.rows ++ [r] }
  | .esDocIndexed d => { s with docs := s.docs ++ [d] }
  | _ => s

/-- Run a whole trace over the stores. -/
def runTrace (s : Stores) (tr : List Event) : Stores :=
  tr.foldl stepEvent s

end ActivityListener

namespace ActivityListener

/-! ### Claim theorems -/

/-- Claim C1: for every valid (non-null) delivered payload, `handleLogEvent`
returns normally and never raises an error to its caller, for every
configuration and every combination of relational and search outcomes. -/
theorem handleLogEvent_never_raises_on_valid_payload :
    ∀ (cfg : Config) (env : Env) (p : ActivityLogPayload),
    handleLogEventJs cfg env (some p) = Except.ok (handleLogEvent cfg env p) :=
  fun _ _ _ => rfl

/-- Claim C9: if the delivered payload is null or undefined, the receipt-log
statement dereferences `payload.userId` before either protective `try` block
is entered, so `handleLogEvent` raises a `TypeError` to its caller. -/
theorem null_payload_raises_type_error :
    ∀ (cfg : Config) (env : Env),
    handleLogEventJs cfg env none = Except.error JsError.typeError :=
  fun _ _ => rfl

/-- Claim C2, counterexample: with `ELASTICSEARCH_NODE` absent
(`elasticsearchNode = none`) and the search backend unreachable, the listener
still performs one indexing call and logs a warning — contradicting the claim
that absence of the configuration disables the Search Indexer entirely. -/
theorem es_absent_config_counterexample :
    esIndexCalls (handleLogEvent ⟨none⟩
      ⟨true, false, 1, "2025-01-01T00:00:00.000Z", "2025-01-01T00:00:00.500Z"⟩
      ⟨"user-123", "/api/endpoint", "GET", 42⟩) = 1 ∧
    logsAt .warn (handleLogEvent ⟨none⟩
      ⟨true, false, 1, "2025-01-01T00:00:00.000Z", "2025-01-01T00:00:00.500Z"⟩
      ⟨"user-123", "/api/endpoint", "GET", 42⟩)
      = ["Elasticsearch not available, skipping ES save"] := by
  decide

/-- Claim C2, amended: when `ELASTICSEARCH_NODE` is absent the `SearchModule`
factory falls back to the default node `http://localhost:9200`; the injected
service is always present, so exactly one indexing call (against the default
node) is still made for every delivered record, and a warning is logged
exactly when that call fails. Absence of the configuration does not disable
the Search Indexer. -/
theorem es_absent_config_uses_default_node :
    ∀ (env : Env) (p : ActivityLogPayload),
    indexCallArgs (handleLogEvent ⟨none⟩ env p)
      = [("http://localhost:9200", "activity-logs",
          ⟨p.userId, p.url, p.processType, p.responseTimeMs, env.nowIso⟩)] ∧
    esIndexCalls (handleLogEvent ⟨none⟩ env p) = 1 ∧
    logsAt .warn (handleLogEvent ⟨none⟩ env p)
      = (if env.esOk then [] else ["Elasticsearch not available, skipping ES save"]) := by
  intro env p
  obtain ⟨dbOk, esOk, aid, ts, now⟩ := env
  cases dbOk <;> cases esOk <;> exact ⟨rfl, rfl, rfl⟩

/-- Claim C3: when the relational write fails, the error is caught at that
boundary (the handler still returns normally), no row is inserted, exactly
one error-severity log is emitted, and the search write is still attempted
(the backend is always configured, so exactly one index call follows). -/
theorem db_failure_contained_and_search_attempted :
    ∀ (cfg : Config) (env : Env) (p : ActivityLogPayload), env.dbOk = false →
    selectRows (handleLogEvent cfg env p) = [] ∧
    logsAt .error (handleLogEvent cfg env p)
      = ["Failed to save activity log to MariaDB"] ∧
    handleLogEventJs cfg env (some p) = Except.ok (handleLogEvent cfg env p) ∧
    esIndexCalls (handleLogEvent cfg env p) = 1 := by
  intro cfg env p h
  obtain ⟨dbOk, esOk, aid, ts, now⟩ := env
  simp only at h
  subst h
  cases esOk <;> exact ⟨rfl, rfl, rfl, rfl⟩

/-- Witness for claim C3 at a concrete input: relational store down, search
backend configured and healthy. -/
theorem db_failure_contained_witness :
    (⟨false, true, 0, "2025-01-01T08:00:00.000Z", "2025-01-01T08:00:01.000Z"⟩ : Env).dbOk
        = false ∧
    (selectRows (handleLogEvent ⟨some "http://search.example:9200"⟩
        ⟨false, true, 0, "2025-01-01T08:00:00.000Z", "2025-01-01T08:00:01.000Z"⟩
        ⟨"user-123", "/api/endpoint", "GET", 42⟩) = [] ∧
      logsAt .error (handleLogEvent ⟨some "http://search.example:9200"⟩
        ⟨false, true, 0, "2025-01-01T08:00:00.000Z", "2025-01-01T08:00:01.000Z"⟩
        ⟨"user-123", "/api/endpoint", "GET", 42⟩)
        = ["Failed to save activity log to MariaDB"] ∧
      handleLogEventJs ⟨some "http://search.example:9200"⟩
        ⟨false, true, 0, "2025-01-01T08:00:00.000Z", "2025-01-01T08:00:01.000Z"⟩
        (some ⟨"user-123", "/api/endpoint", "GET", 42⟩)
        = Except.ok (handleLogEvent ⟨some "http://search.example:9200"⟩
            ⟨false, true, 0, "2025-01-01T08:00:00.000Z", "2025-01-01T08:00:01.000Z"⟩
            ⟨"user-123", "/api/endpoint", "GET", 42⟩) ∧
      esIndexCalls (handleLogEvent ⟨some "http://search.example:9200"⟩
        ⟨false, true, 0, "2025-01-01T08:00:00.000Z", "2025-01-01T08:00:01.000Z"⟩
        ⟨"user-123", "/api/endpoint", "GET", 42⟩) = 1) :=
  ⟨rfl, db_failure_contained_and_search_attempted _ _ _ rfl⟩

/-- Claim C4: when the index call fails, the error is caught and swallowed
(the handler returns normally), exactly one warning-severity log is emitted,
warning severity is distinct from the error severity used for relational
failures, and the relational outcome (rows inserted, relational logs at info
and error severity) is exactly what it would have been had the index call
succeeded. -/
theorem es_failure_warned_db_outcome_unaffected :
    ∀ (cfg : Config) (env : Env) (p : ActivityLogPayload), env.esOk = false →
    logsAt .warn (handleLogEvent cfg env p)
      = ["Elasticsearch not available, skipping ES save"] ∧
    LogLevel.warn ≠ LogLevel.error ∧
    handleLogEventJs cfg env (some p) = Except.ok (handleLogEvent cfg env p) ∧
    selectRows (handleLogEvent cfg env p)
      = selectRows (handleLogEvent cfg { env with esOk := true } p) ∧
    logsAt .error (handleLogEvent cfg env p)
      = logsAt .error (handleLogEvent cfg { env with esOk := true } p) := by
  intro cfg env p h
  obtain ⟨dbOk, esOk, aid, ts, now⟩ := env
  simp only at h
  subst h
  cases dbOk <;> exact ⟨rfl, by decide, rfl, rfl, rfl⟩

/-- Witness for claim C4 at a concrete input: both relational write healthy
and search backend failing. -/
theorem es_failure_warned_witness :
    (⟨true, false, 5, "2025-02-02T10:00:00.000Z", "2025-02-02T10:00:02.000Z"⟩ : Env).esOk
        = false ∧
    (logsAt .warn (handleLogEvent ⟨some "http://search.example:9200"⟩
        ⟨true, false, 5, "2025-02-02T10:00:00.000Z", "2025-02-02T10:00:02.000Z"⟩
        ⟨"user-9", "/api/orders", "POST", 130⟩)
        = ["Elasticsearch not available, skipping ES save"] ∧
      LogLevel.warn ≠ LogLevel.error ∧
      handleLogEventJs ⟨some "http://search.example:9200"⟩
        ⟨true, false, 5, "2025-02-02T10:00:00.000Z", "2025-02-02T10:00:02.000Z"⟩
        (some ⟨"user-9", "/api/orders", "POST", 130⟩)
        = Except.ok (handleLogEvent ⟨some "http://search.example:9200"⟩
            ⟨true, false, 5, "2025-02-02T10:00:00.000Z", "2025-02-02T10:00:02.000Z"⟩
            ⟨"user-9", "/api/orders", "POST", 130⟩) ∧
      selectRows (handleLogEvent ⟨some "http://search.example:9200"⟩
        ⟨true, false, 5, "2025-02-02T10:00:00.000Z", "2025-02-02T10:00:02.000Z"⟩
        ⟨"user-9", "/api/orders", "POST", 130⟩)
        = selectRows (handleLogEvent ⟨some "http://search.example:9200"⟩
            ⟨true, true, 5, "2025-02-02T10:00:00.000Z", "2025-02-02T10:00:02.000Z"⟩
            ⟨"user-9", "/api/orders", "POST", 130⟩) ∧
      logsAt .error (handleLogEvent ⟨some "http://search.example:9200"⟩
        ⟨true, false, 5, "2025-02-02T10:00:00.000Z", "2025-02-02T10:00:02.000Z"⟩
        ⟨"user-9", "/api/orders", "POST", 130⟩)
        = logsAt .error (handleLogEvent ⟨some "http://search.example:9200"⟩
            ⟨true, true, 5, "2025-02-02T10:00:00.000Z", "2025-02-02T10:00:02.000Z"⟩
            ⟨"user-9", "/api/orders", "POST", 130⟩)) :=
  ⟨rfl, es_failure_warned_db_outcome_unaffected _ _ _ rfl⟩

end ActivityListener

namespace ActivityListener

/-- Claim C5: for every delivered record, the CLS identity scope carrying
the record's `userId` opens before the `save` call and is torn down on every
exit path of that call (success and failure alike): the trace decomposes
around a unique `clsOpen`/`clsClose` pair, the `userId` is set and the one
`save` attempt happens strictly inside the pair, and no index call occurs
before the scope has closed. -/
theorem cls_scope_brackets_relational_write :
    ∀ (cfg : Config) (env : Env) (p : ActivityLogPayload),
    ∃ pre mid post,
      handleLogEvent cfg env p
        = pre ++ [Event.clsOpen] ++ mid ++ [Event.clsClose] ++ post ∧
      clsOpens pre = 0 ∧ clsOpens mid = 0 ∧ clsOpens post = 0 ∧
      clsCloses pre = 0 ∧ clsCloses mid = 0 ∧ clsCloses post = 0 ∧
      Event.clsSet "userId" p.userId ∈ mid ∧
      dbSaveCalls pre = 0 ∧ dbSaveCalls mid = 1 ∧ dbSaveCalls post = 0 ∧
      esIndexCalls pre = 0 ∧ esIndexCalls mid = 0 := by
  intro cfg env p
  obtain ⟨dbOk, esOk, aid, ts, now⟩ := env
  cases dbOk <;> cases esOk
  · exact ⟨[Event.logMsg .info
        ("Caught log event! User: " ++ p.userId ++ ", URL: " ++ p.url)],
      [Event.clsSet "userId" p.userId, Event.dbSaveCall (repositoryCreate p)],
      [Event.logMsg .error "Failed to save activity log to MariaDB",
       Event.esIndexCall (searchModuleNode cfg) "activity-logs"
         ⟨p.userId, p.url, p.processType, p.responseTimeMs, now⟩,
       Event.logMsg .warn "Elasticsearch not available, skipping ES save"],
      rfl, rfl, rfl, rfl, rfl, rfl, rfl, List.mem_cons_self _ _,
      rfl, rfl, rfl, rfl, rfl⟩
  · exact ⟨[Event.logMsg .info
        ("Caught log event! User: " ++ p.userId ++ ", URL: " ++ p.url)],
      [Event.clsSet "userId" p.userId, Event.dbSaveCall (repositoryCreate p)],
      [Event.logMsg .error "Failed to save activity log to MariaDB",
       Event.esIndexCall (searchModuleNode cfg) "activity-logs"
         ⟨p.userId, p.url, p.processType, p.responseTimeMs, now⟩,
       Event.esDocIndexed ⟨p.userId, p.url, p.processType, p.responseTimeMs, now⟩,
       Event.logMsg .info "Saved to Elasticsearch"],
      rfl, rfl, rfl, rfl, rfl, rfl, rfl, List.mem_cons_self _ _,
      rfl, rfl, rfl, rfl, rfl⟩
  · exact ⟨[Event.logMsg .info
        ("Caught log event! User: " ++ p.userId ++ ", URL: " ++ p.url)],
      [Event.clsSet "userId" p.userId, Event.dbSaveCall (repositoryCreate p),
       Event.dbRowInserted
         ⟨aid, ts, p.userId, p.url, p.processType, p.responseTimeMs⟩],
      [Event.logMsg .info "Saved to MariaDB",
       Event.esIndexCall (searchModuleNode cfg) "activity-logs"
         ⟨p.userId, p.url, p.processType, p.responseTimeMs, now⟩,
       Event.logMsg .warn "Elasticsearch not available, skipping ES save"],
      rfl, rfl, rfl, rfl, rfl, rfl, rfl, List.mem_cons_self _ _,
      rfl, rfl, rfl, rfl, rfl⟩
  · exact ⟨[Event.logMsg .info
        ("Caught log event! User: " ++ p.userId ++ ", URL: " ++ p.url)],
      [Event.clsSet "userId" p.userId, Event.dbSaveCall (repositoryCreate p),
       Event.dbRowInserted
         ⟨aid, ts, p.userId, p.url, p.processType, p.responseTimeMs⟩],
      [Event.logMsg .info "Saved to MariaDB",
       Event.esIndexCall (searchModuleNode cfg) "activity-logs"
         ⟨p.userId, p.url, p.processType, p.responseTimeMs, now⟩,
       Event.esDocIndexed ⟨p.userId, p.url, p.processType, p.responseTimeMs, now⟩,
       Event.logMsg .info "Saved to Elasticsearch"],
      rfl, rfl, rfl, rfl, rfl, rfl, rfl, List.mem_cons_self _ _,
      rfl, rfl, rfl, rfl, rfl⟩

/-- Claim C6: within one delivery the two sink writes are strictly
sequential: the trace splits into a front part holding the single `save`
attempt together with its outcome (row inserted on success, error log on
failure) and no index call, followed by a back part holding the single index
call and no relational or CLS activity — so the relational write has finished
before the search write starts. -/
theorem relational_write_precedes_search_write :
    ∀ (cfg : Config) (env : Env) (p : ActivityLogPayload),
    ∃ front back,
      handleLogEvent cfg env p = front ++ back ∧
      dbSaveCalls front = 1 ∧
      dbRowsInserted front = (if env.dbOk then 1 else 0) ∧
      (logsAt .error front).length = (if env.dbOk then 0 else 1) ∧
      esIndexCalls front = 0 ∧
      dbSaveCalls back = 0 ∧ dbRowsInserted back = 0 ∧
      clsOpens back = 0 ∧ clsCloses back = 0 ∧
      esIndexCalls back = 1 := by
  intro cfg env p
  obtain ⟨dbOk, esOk, aid, ts, now⟩ := env
  cases dbOk <;> cases esOk
  · exact ⟨[Event.logMsg .info
        ("Caught log event! User: " ++ p.userId ++ ", URL: " ++ p.url),
       Event.clsOpen, Event.clsSet "userId" p.userId,
       Event.dbSaveCall (repositoryCreate p), Event.clsClose,
       Event.logMsg .error "Failed to save activity log to MariaDB"],
      [Event.esIndexCall (searchModuleNode cfg) "activity-logs"
         ⟨p.userId, p.url, p.processType, p.responseTimeMs, now⟩,
       Event.logMsg .warn "Elasticsearch not available, skipping ES save"],
      rfl, rfl, rfl, rfl, rfl, rfl, rfl, rfl, rfl, rfl⟩
  · exact ⟨[Event.logMsg .info
        ("Caught log event! User: " ++ p.userId ++ ", URL: " ++ p.url),
       Event.clsOpen, Event.clsSet "userId" p.userId,
       Event.dbSaveCall (repositoryCreate p), Event.clsClose,
       Event.logMsg .error "Failed to save activity log to MariaDB"],
      [Event.esIndexCall (searchModuleNode cfg) "activity-logs"
         ⟨p.userId, p.url, p.processType, p.responseTimeMs, now⟩,
       Event.esDocIndexed ⟨p.userId, p.url, p.processType, p.responseTimeMs, now⟩,
       Event.logMsg .info "Saved to Elasticsearch"],
      rfl, rfl, rfl, rfl, rfl, rfl, rfl, rfl, rfl, rfl⟩
  · exact ⟨[Event.logMsg .info
        ("Caught log event! User: " ++ p.userId ++ ", URL: " ++ p.url),
       Event.clsOpen, Event.clsSet "userId" p.userId,
       Event.dbSaveCall (repositoryCreate p),
       Event.dbRowInserted
         ⟨aid, ts, p.userId, p.url, p.processType, p.responseTimeMs⟩,
       Event.clsClose, Event.logMsg .info "Saved to MariaDB"],
      [Event.esIndexCall (searchModuleNode cfg) "activity-logs"
         ⟨p.userId, p.url, p.processType, p.responseTimeMs, now⟩,
       Event.logMsg .warn "Elasticsearch not available, skipping ES save"],
      rfl, rfl, rfl, rfl, rfl, rfl, rfl, rfl, rfl, rfl⟩
  · exact ⟨[Event.logMsg .info
        ("Caught log event! User: " ++ p.userId ++ ", URL: " ++ p.url),
       Event.clsOpen, Event.clsSet "userId" p.userId,
       Event.dbSaveCall (repositoryCreate p),
       Event.dbRowInserted
         ⟨aid, ts, p.userId, p.url, p.processType, p.responseTimeMs⟩,
       Event.clsClose, Event.logMsg .info "Saved to MariaDB"],
      [Event.esIndexCall (searchModuleNode cfg) "activity-logs"
         ⟨p.userId, p.url, p.processType, p.responseTimeMs, now⟩,
       Event.esDocIndexed ⟨p.userId, p.url, p.processType, p.responseTimeMs, now⟩,
       Event.logMsg .info "Saved to Elasticsearch"],
      rfl, rfl, rfl, rfl, rfl, rfl, rfl, rfl, rfl, rfl⟩

end ActivityListener

namespace ActivityListener

/-- Claim C7: every index call targets the `activity-logs` index with a body
holding exactly the four inbound payload fields plus a `timestamp` equal to
the ISO string generated at index time (`env.nowIso`), never the relational
store's write-time timestamp; and on a concrete run where both sinks succeed
with different generated instants, the indexed document's timestamp differs
from the inserted row's timestamp. -/
theorem search_doc_fields_and_independent_timestamp :
    (∀ (cfg : Config) (env : Env) (p : ActivityLogPayload),
      indexCallArgs (handleLogEvent cfg env p)
        = [(searchModuleNode cfg, "activity-logs",
            ⟨p.userId, p.url, p.processType, p.responseTimeMs, env.nowIso⟩)] ∧
      selectDocs (handleLogEvent cfg env p)
        = (if env.esOk
            then [⟨p.userId, p.url, p.processType, p.responseTimeMs, env.nowIso⟩]
            else [])) ∧
    ((selectDocs (handleLogEvent ⟨some "http://search.example:9200"⟩
        ⟨true, true, 3, "2025-03-03T09:00:00.000Z", "2025-03-03T09:00:04.000Z"⟩
        ⟨"user-7", "/api/items", "GET", 17⟩)).map SearchDoc.timestamp
        = ["2025-03-03T09:00:04.000Z"] ∧
      (selectRows (handleLogEvent ⟨some "http://search.example:9200"⟩
        ⟨true, true, 3, "2025-03-03T09:00:00.000Z", "2025-03-03T09:00:04.000Z"⟩
        ⟨"user-7", "/api/items", "GET", 17⟩)).map ActivityLog.timestamp
        = ["2025-03-03T09:00:00.000Z"] ∧
      ("2025-03-03T09:00:04.000Z" : String) ≠ "2025-03-03T09:00:00.000Z") := by
  constructor
  · intro cfg env p
    obtain ⟨dbOk, esOk, aid, ts, now⟩ := env
    cases dbOk <;> cases esOk <;> exact ⟨rfl, rfl⟩
  · exact ⟨rfl, rfl, by decide⟩

/-- Claim C8: one invocation performs at most one relational insert attempt
and at most one index call, and its effect on the stores is append-only:
prior rows and documents are preserved unchanged, never updated or deleted,
and replaying the same delivery appends a second independent copy to each
sink. -/
theorem at_most_one_write_per_sink_append_only :
    ∀ (cfg : Config) (env : Env) (p : ActivityLogPayload) (s : Stores),
      dbSaveCalls (handleLogEvent cfg env p) ≤ 1 ∧
      esIndexCalls (handleLogEvent cfg env p) ≤ 1 ∧
      (runTrace s (handleLogEvent cfg env p)).rows
        = s.rows ++ selectRows (handleLogEvent cfg env p) ∧
      (runTrace s (handleLogEvent cfg env p)).docs
        = s.docs ++ selectDocs (handleLogEvent cfg env p) ∧
      (runTrace (runTrace s (handleLogEvent cfg env p))
          (handleLogEvent cfg env p)).rows
        = s.rows ++ selectRows (handleLogEvent cfg env p)
            ++ selectRows (handleLogEvent cfg env p) ∧
      (runTrace (runTrace s (handleLogEvent cfg env p))
          (handleLogEvent cfg env p)).docs
        = s.docs ++ selectDocs (handleLogEvent cfg env p)
            ++ selectDocs (handleLogEvent cfg env p) := by
  intro cfg env p s
  obtain ⟨dbOk, esOk, aid, ts, now⟩ := env
  obtain ⟨rows, docs⟩ := s
  cases dbOk <;> cases esOk <;>
    refine ⟨Nat.le_refl 1, Nat.le_refl 1, ?_, ?_, ?_, ?_⟩ <;>
    simp [handleLogEvent, runTrace, stepEvent, selectRows, selectDocs,
      listenerEsService, searchModuleNode, repositoryCreate]

/-- Claim C10: the handler never mutates the delivered payload: the trace
contains no assignment to the payload object (so the payload after the run
equals the payload at delivery), the one saved entity is the fresh copy made
by `repository.create`, and the one index body is a fresh object spreading
the payload's fields before adding the timestamp. -/
theorem payload_never_mutated :
    ∀ (cfg : Config) (env : Env) (p : ActivityLogPayload),
      payloadWrites (handleLogEvent cfg env p) = 0 ∧
      finalPayload p (handleLogEvent cfg env p) = p ∧
      savedEntities (handleLogEvent cfg env p) = [repositoryCreate p] ∧
      (indexCallArgs (handleLogEvent cfg env p)).map (fun a => a.2.2)
        = [⟨p.userId, p.url, p.processType, p.responseTimeMs, env.nowIso⟩] := by
  intro cfg env p
  obtain ⟨dbOk, esOk, aid, ts, now⟩ := env
  cases dbOk <;> cases esOk <;> exact ⟨rfl, rfl, rfl, rfl⟩

end ActivityListener
